import Mathlib

/-!
Verification of the credential-manager core of `libmachete`
(`credentials.go`): a provisioner registry, a pluggable codec layer,
and a credential manager performing CRUD with two-phase polymorphic
decoding over an abstract key-value store.

The Go source is shallowly embedded: the package-level state (the
`credentialers` registry map and the manager's backing store) becomes an
explicit `PackageState` threaded through every operation; Go errors become
`Except String`; `*CredentialError` results become `Option CredentialError`
(with `none` standing for the `nil` success return).
-/

set_option autoImplicit false

/-- Serialized byte sequences, modelled symbolically: a well-formed wire
record carries a provisioner-name discriminator and an opaque field list;
`junk` stands for bytes no codec can decode (carrying the decode error the
codec would report). -/
inductive Wire where
  | payload (provisionerName : String) (fields : List (String × String))
  | junk (msg : String)
deriving Repr, DecidableEq

/-- Byte sequences exchanged with codecs and readers. -/
abbrev Bytes := Wire

/-- Embedding of `api.CredentialBase`: the minimal structural view of a
serialized credential exposing only the provisioner-name discriminator. -/
structure CredentialBase where
  provisionerName : String
deriving Repr, DecidableEq

/-- Embedding of a concrete `api.Credential` value: the base view (with the
`ProvisionerName()` accessor) plus the provisioner-specific fields, kept
opaque as a string association list. -/
structure Credential where
  base : CredentialBase
  fields : List (String × String)
deriving Repr, DecidableEq

/-- The registry map `credentialers : map[string]func() api.Credential`.
A zero-argument factory is modelled by the empty credential value it
produces. Entries are kept in a list; lookup takes the first match, and
`RegisterCredentialer` conses, so the last registration for a name wins,
matching Go map assignment. -/
abbrev Registry := List (String × Credential)

/-- First-match lookup in an association list keyed by strings; the
embedding of a Go map read `m[k]` with its `ok` flag. -/
def assocLookup {α : Type} : List (String × α) → String → Option α
  | [], _ => none
  | p :: l, k => if p.1 = k then some p.2 else assocLookup l k

/-- Remove every binding for a key; used to model a map/store overwrite. -/
def removeKey {α : Type} : List (String × α) → String → List (String × α)
  | [], _ => []
  | p :: l, k => if p.1 = k then removeKey l k else p :: removeKey l k

/-- Modelled from the spec: the `codec` type (defined in the package's
codec file, which is not part of the source here) is a pluggable
marshal/unmarshal strategy. The Go `unmarshal(data, target)` dispatches on
the dynamic type of `target`; the embedding splits it into the base-shape
and concrete-shape decoders that dispatch would select. -/
structure codec where
  unmarshalBase : Bytes → CredentialBase → Except String CredentialBase
  unmarshal : Bytes → Credential → Except String Credential
  marshal : Credential → Except String Bytes

/-- Modelled from the spec: the process-wide default codec selected when
the content-type selector is nil. Decodes a well-formed wire record into
the target shape and fails on junk bytes. -/
def DefaultContentType : codec :=
  ⟨fun d _target =>
      match d with
      | .payload p _ => .ok ⟨p⟩
      | .junk m => .error m,
   fun d _target =>
      match d with
      | .payload p fs => .ok ⟨⟨p⟩, fs⟩
      | .junk m => .error m,
   fun c => .ok (.payload c.base.provisionerName c.fields)⟩

/-- Embedding of `ensureValidCredentialContentType` (lines 69-74): a nil
content-type selector resolves to the default codec. -/
def ensureValidCredentialContentType (ct : Option codec) : codec :=
  match ct with
  | some c => c
  | none => DefaultContentType

/-- Modelled from the spec: the `storage.Credentials` collaborator, a
key-value store holding one decoded credential record per key. The
`fail*` fields inject the failures the store interface allows (reads
failing on absent or undecodable records, save/list/delete errors), so
that every error branch of the manager is reachable in the model. -/
structure StoreState where
  recs : List (String × Credential)
  failGetBase : List String
  failGetDetail : List String
  failSave : List String
  failList : Bool
  failDelete : List String
deriving Repr, DecidableEq

/-- Replace the record list of a store, keeping the fault injections. -/
def StoreState.setRecs (s : StoreState) (r : List (String × Credential)) : StoreState :=
  ⟨r, s.failGetBase, s.failGetDetail, s.failSave, s.failList, s.failDelete⟩

/-- Modelled from the spec: `store.GetCredentials(key, target)` with a
base-shape target — populates the discriminator-only view, failing when
the record is absent or the store cannot decode it. -/
def StoreState.getBase (s : StoreState) (k : String) : Except String CredentialBase :=
  if k ∈ s.failGetBase then .error ("store: cannot decode record at key: " ++ k)
  else
    match assocLookup s.recs k with
    | some c => .ok c.base
    | none => .error ("store: not found: " ++ k)

/-- Modelled from the spec: `store.GetCredentials(key, target)` with a
concrete-shape target — populates the target in place with the stored
record, failing when absent or undecodable. The target only selects the
shape; population overwrites it with the stored record. -/
def StoreState.getDetail (s : StoreState) (k : String) (_target : Credential) :
    Except String Credential :=
  if k ∈ s.failGetDetail then .error ("store: cannot decode record at key: " ++ k)
  else
    match assocLookup s.recs k with
    | some c => .ok c
    | none => .error ("store: not found: " ++ k)

/-- Modelled from the spec: `store.Save(key, cred)` — unconditional upsert,
or a store error that leaves the records untouched. -/
def StoreState.save (s : StoreState) (k : String) (c : Credential) :
    Except String StoreState :=
  if k ∈ s.failSave then .error ("store: save failed: " ++ k)
  else .ok (s.setRecs ((k, c) :: removeKey s.recs k))

/-- Modelled from the spec: `store.Delete(key)` — unconditional removal;
the error behavior for an absent key is store-defined (here: success). -/
def StoreState.delete (s : StoreState) (k : String) : Except String StoreState :=
  if k ∈ s.failDelete then .error ("store: delete failed: " ++ k)
  else .ok (s.setRecs (removeKey s.recs k))

/-- Modelled from the spec: `store.List()` — the keys currently stored. -/
def StoreState.list (s : StoreState) : Except String (List String) :=
  if s.failList then .error "store: list failed"
  else .ok (s.recs.map Prod.fst)

/-- The package-level state seen by the manager: the global `credentialers`
registry map and the backing store held by the `credentials` struct. Every
operation returns its updated `PackageState`, so frame properties (what an
operation leaves untouched) are statable. -/
structure PackageState where
  credentialers : Registry
  store : StoreState
deriving Repr, DecidableEq

/-- Replace the store component, keeping the registry. -/
def PackageState.setStore (g : PackageState) (s : StoreState) : PackageState :=
  ⟨g.credentialers, s⟩

/-- Embedding of `RegisterCredentialer` (lines 19-24): installs or replaces
the factory for a provisioner name (last registration wins). The lock
acquisition it performs is modelled separately as an event trace. -/
def RegisterCredentialer (g : PackageState) (provisionerName : String)
    (f : Credential) : PackageState :=
  ⟨(provisionerName, f) :: g.credentialers, g.store⟩

/-- Embedding of `credentials.NewCredential` (lines 77-82): registry lookup
by provisioner name, or the error `Unknown provisioner: name`. -/
def credentials.NewCredential (g : PackageState) (provisionerName : String) :
    Except String Credential × PackageState :=
  match assocLookup g.credentialers provisionerName with
  | some c => (.ok c, g)
  | none => (.error ("Unknown provisioner: " ++ provisionerName), g)

/-- Embedding of `credentials.Unmarshal` (lines 86-88) applied to a
concrete credential target. -/
def credentials.Unmarshal (g : PackageState) (contentType : Option codec)
    (data : Bytes) (cred : Credential) : Except String Credential × PackageState :=
  ((ensureValidCredentialContentType contentType).unmarshal data cred, g)

/-- Embedding of `credentials.Unmarshal` (lines 86-88) applied to a
`CredentialBase` target: the same Go method, dispatched on the base shape. -/
def credentials.UnmarshalBase (g : PackageState) (contentType : Option codec)
    (data : Bytes) (b : CredentialBase) : Except String CredentialBase × PackageState :=
  ((ensureValidCredentialContentType contentType).unmarshalBase data b, g)

/-- Embedding of `credentials.Marshal` (lines 92-94). -/
def credentials.Marshal (g : PackageState) (contentType : Option codec)
    (cred : Credential) : Except String Bytes × PackageState :=
  ((ensureValidCredentialContentType contentType).marshal cred, g)

/-- Embedding of `credentials.ListIds` (lines 96-106); the
`storage.CredentialsID` to `string` conversion in the loop is the
identity in the model. -/
def credentials.ListIds (g : PackageState) : Except String (List String) × PackageState :=
  match g.store.list with
  | .error e => (.error e, g)
  | .ok l => (.ok (l.map (fun i => i)), g)

/-- Embedding of `credentials.Save` (lines 108-110): delegates to the
store's upsert. -/
def credentials.Save (g : PackageState) (key : String) (cred : Credential) :
    Except String Unit × PackageState :=
  match g.store.save key cred with
  | .error e => (.error e, g)
  | .ok s => (.ok (), g.setStore s)

/-- Embedding of `credentials.Get` (lines 112-131): two-phase decode —
read the base shape at the key, resolve the concrete credential from the
registry by the discriminator, re-read the same key into the concrete
shape. -/
def credentials.Get (g : PackageState) (key : String) :
    Except String Credential × PackageState :=
  match g.store.getBase key with
  | .error e => (.error e, g)
  | .ok base =>
    match (credentials.NewCredential g base.provisionerName).1 with
    | .error e => (.error e, g)
    | .ok detail =>
      match g.store.getDetail key detail with
      | .error e => (.error e, g)
      | .ok d => (.ok d, g)

/-- Embedding of `credentials.Delete` (lines 133-135). -/
def credentials.Delete (g : PackageState) (key : String) :
    Except String Unit × PackageState :=
  match g.store.delete key with
  | .error e => (.error e, g)
  | .ok s => (.ok (), g.setStore s)

/-- Embedding of `credentials.Exists` (lines 137-141): true iff a
base-shape read at the key succeeds. -/
def credentials.Exists (g : PackageState) (key : String) : Bool × PackageState :=
  (match g.store.getBase key with
   | .ok _ => true
   | .error _ => false, g)

/-- Error code `ErrCredentialDuplicate` (line 144): iota value 0. -/
def ErrCredentialDuplicate : Nat := 0

/-- Error code `ErrCredentialNotFound` (line 145): iota value 1. -/
def ErrCredentialNotFound : Nat := 1

/-- Embedding of `CredentialError` (lines 148-151). A Go struct literal
that sets only `Message` leaves `Code` at its zero value 0, which is the
value of `ErrCredentialDuplicate`. -/
structure CredentialError where
  Code : Nat
  Message : String
deriving Repr, DecidableEq

/-- The result of draining an `io.Reader` with `ioutil.ReadAll`: either the
bytes read or a read error. -/
abbrev Reader := Except String Bytes

/-- Embedding of the `ioutil.ReadAll(input)` call: the reader's outcome. -/
def ioutilReadAll (input : Reader) : Except String Bytes := input

/-- Embedding of `credentials.CreateCredential` (lines 158-180). Error
literals built with only a message (`CredentialError{Message: ...}` in Go)
carry `Code` 0, the Go zero value. -/
def credentials.CreateCredential (g : PackageState) (provisioner key : String)
    (input : Reader) (ct : Option codec) : Option CredentialError × PackageState :=
  if (credentials.Exists g key).1 then
    (some ⟨ErrCredentialDuplicate, "Key exists: " ++ key⟩, g)
  else
    match (credentials.NewCredential g provisioner).1 with
    | .error _ => (some ⟨ErrCredentialNotFound, "Unknown provisioner:" ++ provisioner⟩, g)
    | .ok cr =>
      match ioutilReadAll input with
      | .error e => (some ⟨0, e⟩, g)
      | .ok buff =>
        match (credentials.Unmarshal g ct buff cr).1 with
        | .error e => (some ⟨0, e⟩, g)
        | .ok cr' =>
          match credentials.Save g key cr' with
          | (.error e, _) => (some ⟨0, e⟩, g)
          | (.ok _, g') => (none, g')

/-- Embedding of `credentials.UpdateCredential` (lines 182-211). The base
target starts as `new(api.CredentialBase)`, whose zero value has an empty
provisioner name; the misspelled message `Unknow provisioner:` is the
source's literal text. -/
def credentials.UpdateCredential (g : PackageState) (key : String)
    (input : Reader) (ct : Option codec) : Option CredentialError × PackageState :=
  if !(credentials.Exists g key).1 then
    (some ⟨ErrCredentialNotFound, "Credential not found: " ++ key⟩, g)
  else
    match ioutilReadAll input with
    | .error e => (some ⟨0, e⟩, g)
    | .ok buff =>
      match (credentials.UnmarshalBase g ct buff ⟨""⟩).1 with
      | .error e => (some ⟨0, e⟩, g)
      | .ok base =>
        match (credentials.NewCredential g base.provisionerName).1 with
        | .error _ =>
          (some ⟨ErrCredentialNotFound, "Unknow provisioner: " ++ base.provisionerName⟩, g)
        | .ok detail =>
          match (credentials.Unmarshal g ct buff detail).1 with
          | .error e => (some ⟨0, e⟩, g)
          | .ok detail' =>
            match credentials.Save g key detail' with
            | (.error e, _) => (some ⟨0, e⟩, g)
            | (.ok _, g') => (none, g')

/-- Events observable on the registry paths, used to model which code
paths hold the mutual-exclusion lock around the `credentialers` map. -/
inductive RegEvent where
  | acquireLock
  | releaseLock
  | writeMap
  | readMap
  | callStore
deriving Repr, DecidableEq

/-- Event trace of `RegisterCredentialer` (lines 19-24): `lock.Lock()`,
the map write, then the deferred `lock.Unlock()`. -/
def RegisterCredentialerTrace : List RegEvent :=
  [.acquireLock, .writeMap, .releaseLock]

/-- Event trace of `credentials.NewCredential` (lines 77-82): a bare map
read; the function never touches `lock`. -/
def NewCredentialTrace : List RegEvent :=
  [.readMap]

/-- True when a trace acquires the lock at least once. -/
def acquiresLock (t : List RegEvent) : Bool :=
  t.contains .acquireLock

/-- True when no store/codec call occurs while the lock is held: scanning
left to right, every `callStore` event happens at lock depth zero. -/
def noStoreCallUnderLock : List RegEvent → Nat → Bool
  | [], _ => true
  | .acquireLock :: t, d => noStoreCallUnderLock t (d + 1)
  | .releaseLock :: t, d => noStoreCallUnderLock t (d - 1)
  | .callStore :: t, d => d = 0 && noStoreCallUnderLock t d
  | _ :: t, d => noStoreCallUnderLock t d

/-- Decidable equality for `Except` results, so witnesses can be settled
by evaluation. -/
instance {ε α : Type} [DecidableEq ε] [DecidableEq α] : DecidableEq (Except ε α) := fun a b =>
  match a, b with
  | .error x, .error y =>
    if h : x = y then .isTrue (by rw [h])
    else .isFalse (by intro hc; injection hc; contradiction)
  | .error _, .ok _ => .isFalse (by intro hc; injection hc)
  | .ok _, .error _ => .isFalse (by intro hc; injection hc)
  | .ok x, .ok y =>
    if h : x = y then .isTrue (by rw [h])
    else .isFalse (by intro hc; injection hc; contradiction)

/-! Concrete fixtures used by witnesses and counterexamples. -/

/-- Empty credential produced by the `aws` factory. -/
def awsEmpty : Credential := ⟨⟨"aws"⟩, []⟩

/-- Empty credential produced by the `gcp` factory. -/
def gcpEmpty : Credential := ⟨⟨"gcp"⟩, []⟩

/-- A populated `aws` credential as stored at key `k1`. -/
def awsCred1 : Credential := ⟨⟨"aws"⟩, [("AccessKey", "A"), ("SecretKey", "B")]⟩

/-- A store with the given records and no injected faults. -/
def cleanStore (r : List (String × Credential)) : StoreState :=
  ⟨r, [], [], [], false, []⟩

/-- Empty registry, empty store. -/
def gNil : PackageState := ⟨[], cleanStore []⟩

/-- Registry with `aws` only, empty store. -/
def gAws : PackageState := ⟨[("aws", awsEmpty)], cleanStore []⟩

/-- Registry with `aws` only, store holding `k1`. -/
def gAws1 : PackageState := ⟨[("aws", awsEmpty)], cleanStore [("k1", awsCred1)]⟩

/-- Registry with `aws` and `gcp`, store holding an `aws` record at `k1`. -/
def gTwo : PackageState :=
  ⟨[("aws", awsEmpty), ("gcp", gcpEmpty)], cleanStore [("k1", awsCred1)]⟩

/-! Helper lemmas shared by the claim proofs. -/

theorem assocLookup_cons_self {α : Type} (l : List (String × α)) (k : String) (v : α) :
    assocLookup ((k, v) :: l) k = some v := by
  simp [assocLookup]

theorem exists_of_lookup {g : PackageState} {k : String} {c : Credential}
    (hl : assocLookup g.store.recs k = some c) (hf : k ∉ g.store.failGetBase) :
    (credentials.Exists g k).1 = true := by
  simp [credentials.Exists, StoreState.getBase, hl, hf]

theorem createCredential_exists {g : PackageState} {p k : String}
    {input : Reader} {ct : Option codec}
    (h : (credentials.Exists g k).1 = true) :
    credentials.CreateCredential g p k input ct =
      (some ⟨ErrCredentialDuplicate, "Key exists: " ++ k⟩, g) := by
  simp [credentials.CreateCredential, h]

theorem save_ok_state {g g' : PackageState} {k : String} {c : Credential} {u : Unit}
    (h : credentials.Save g k c = (.ok u, g')) :
    g' = g.setStore (g.store.setRecs ((k, c) :: removeKey g.store.recs k)) := by
  by_cases hf : k ∈ g.store.failSave
  · simp [credentials.Save, StoreState.save, hf] at h
  · simp [credentials.Save, StoreState.save, hf] at h
    exact h.symm

theorem createCredential_ok_state {g g' : PackageState} {p k : String}
    {input : Reader} {ct : Option codec}
    (h : credentials.CreateCredential g p k input ct = (none, g')) :
    ∃ c, g' = g.setStore (g.store.setRecs ((k, c) :: removeKey g.store.recs k)) := by
  by_cases hex : (credentials.Exists g k).1 = true
  · simp [credentials.CreateCredential, hex] at h
  · rw [Bool.not_eq_true] at hex
    rcases hNew : (credentials.NewCredential g p).1 with e | cr
    · simp [credentials.CreateCredential, hex, hNew] at h
    · rcases hRead : ioutilReadAll input with e | buff
      · simp [credentials.CreateCredential, hex, hNew, hRead] at h
      · rcases hUn : (credentials.Unmarshal g ct buff cr).1 with e | cr'
        · simp [credentials.CreateCredential, hex, hNew, hRead, hUn] at h
        · rcases hSave : credentials.Save g k cr' with ⟨res, g₂⟩
          rcases res with e | u
          · simp [credentials.CreateCredential, hex, hNew, hRead, hUn, hSave] at h
          · simp [credentials.CreateCredential, hex, hNew, hRead, hUn, hSave] at h
            exact ⟨cr', h ▸ save_ok_state hSave⟩

/-- C8: for every payload and credential shape, Marshal and Unmarshal with
a nil content-type selector behave identically to the same call with the
process-wide default codec: the nil selector is resolved to the default
codec before dispatch, and a non-nil selector is used as given. -/
theorem nil_selector_resolves_to_default_codec :
    ensureValidCredentialContentType none = DefaultContentType ∧
    (∀ c, ensureValidCredentialContentType (some c) = c) ∧
    (∀ (g : PackageState) (data : Bytes) (cred : Credential),
      credentials.Unmarshal g none data cred =
        credentials.Unmarshal g (some DefaultContentType) data cred) ∧
    (∀ (g : PackageState) (data : Bytes) (b : CredentialBase),
      credentials.UnmarshalBase g none data b =
        credentials.UnmarshalBase g (some DefaultContentType) data b) ∧
    (∀ (g : PackageState) (cred : Credential),
      credentials.Marshal g none cred =
        credentials.Marshal g (some DefaultContentType) cred) :=
  ⟨rfl, fun _ => rfl, fun _ _ _ => rfl, fun _ _ _ => rfl, fun _ _ => rfl⟩

/-- C3: on a key that does not exist, UpdateCredential fails with the
NotFound error before any decode or store write — the result is the same
for every input and codec, and the state is returned unchanged, so no key
is created as a side effect. -/
theorem updateCredential_absent_key_not_found (g : PackageState) (key : String)
    (input : Reader) (ct : Option codec)
    (h : (credentials.Exists g key).1 = false) :
    credentials.UpdateCredential g key input ct =
      (some ⟨ErrCredentialNotFound, "Credential not found: " ++ key⟩, g) := by
  simp [credentials.UpdateCredential, h]

/-- Witness for C3 at a concrete state: the empty store has no key k1, and
updating it fails with NotFound leaving the state unchanged. -/
theorem updateCredential_absent_key_not_found_witness :
    (credentials.Exists gNil "k1").1 = false ∧
    credentials.UpdateCredential gNil "k1" (Except.ok (Wire.payload "aws" [])) none =
      (some ⟨ErrCredentialNotFound, "Credential not found: " ++ "k1"⟩, gNil) :=
  ⟨by decide,
   updateCredential_absent_key_not_found gNil "k1"
     (Except.ok (Wire.payload "aws" [])) none (by decide)⟩

/-- C1: Get performs a two-phase decode. If the base read at the key fails,
Get returns that error; registry resolution of an unregistered
discriminator yields the unknown-provisioner error, which Get propagates;
if the concrete re-read at the same key fails, Get returns that error; and
when all three phases succeed, Get returns the concretely decoded record. -/
theorem get_two_phase_decode (g : PackageState) (key : String) :
    (∀ e, g.store.getBase key = .error e → credentials.Get g key = (.error e, g)) ∧
    (∀ name, assocLookup g.credentialers name = none →
      (credentials.NewCredential g name).1 =
        .error ("Unknown provisioner: " ++ name)) ∧
    (∀ b e, g.store.getBase key = .ok b →
      (credentials.NewCredential g b.provisionerName).1 = .error e →
      credentials.Get g key = (.error e, g)) ∧
    (∀ b d e, g.store.getBase key = .ok b →
      (credentials.NewCredential g b.provisionerName).1 = .ok d →
      g.store.getDetail key d = .error e →
      credentials.Get g key = (.error e, g)) ∧
    (∀ b d r, g.store.getBase key = .ok b →
      (credentials.NewCredential g b.provisionerName).1 = .ok d →
      g.store.getDetail key d = .ok r →
      credentials.Get g key = (.ok r, g)) := by
  refine ⟨?_, ?_, ?_, ?_, ?_⟩
  · intro e h
    simp [credentials.Get, h]
  · intro name h
    simp [credentials.NewCredential, h]
  · intro b e hb hn
    simp [credentials.Get, hb, hn]
  · intro b d e hb hn hd
    simp [credentials.Get, hb, hn, hd]
  · intro b d r hb hn hd
    simp [credentials.Get, hb, hn, hd]

/-- Witness for C1 at concrete states: on a store holding an aws record at
k1 with aws registered, Get succeeds with the stored record; on the empty
store the base read fails and Get returns the underlying store error. -/
theorem get_two_phase_decode_witness :
    credentials.Get gTwo "k1" = (.ok awsCred1, gTwo) ∧
    credentials.Get gNil "k1" = (.error ("store: not found: " ++ "k1"), gNil) :=
  ⟨(get_two_phase_decode gTwo "k1").2.2.2.2 ⟨"aws"⟩ awsEmpty awsCred1
      (by decide) (by decide) (by decide),
   (get_two_phase_decode gNil "k1").1 ("store: not found: " ++ "k1") (by decide)⟩

/-- C2: CreateCredential on an existing key fails with the Duplicate error
kind and performs no store write (the state comes back unchanged), and two
consecutive CreateCredential calls on the same key — the store honoring
its read contract at that key — yield Duplicate on the second call with
the state, hence the stored value, exactly as the first call left it. -/
theorem createCredential_duplicate_no_overwrite :
    (∀ (g : PackageState) (p k : String) (input : Reader) (ct : Option codec),
      (credentials.Exists g k).1 = true →
      credentials.CreateCredential g p k input ct =
        (some ⟨ErrCredentialDuplicate, "Key exists: " ++ k⟩, g)) ∧
    (∀ (g g₁ : PackageState) (p p' k : String) (input input' : Reader)
        (ct ct' : Option codec),
      credentials.CreateCredential g p k input ct = (none, g₁) →
      k ∉ g₁.store.failGetBase →
      credentials.CreateCredential g₁ p' k input' ct' =
        (some ⟨ErrCredentialDuplicate, "Key exists: " ++ k⟩, g₁)) := by
  constructor
  · intro g p k input ct h
    exact createCredential_exists h
  · intro g g₁ p p' k input input' ct ct' h hf
    obtain ⟨c, rfl⟩ := createCredential_ok_state h
    exact createCredential_exists
      (exists_of_lookup (c := c) (assocLookup_cons_self _ _ _) hf)

/-- Witness for C2 at a concrete state: creating k1 twice from the aws-only
registry succeeds once, then yields Duplicate with the state unchanged. -/
theorem createCredential_duplicate_no_overwrite_witness :
    credentials.CreateCredential gAws "aws" "k1"
        (Except.ok (Wire.payload "aws" [("AccessKey", "A"), ("SecretKey", "B")])) none =
      (none, gAws1) ∧
    credentials.CreateCredential gAws1 "aws" "k1"
        (Except.ok (Wire.payload "aws" [("AccessKey", "X"), ("SecretKey", "Y")])) none =
      (some ⟨ErrCredentialDuplicate, "Key exists: " ++ "k1"⟩, gAws1) :=
  ⟨by decide,
   createCredential_duplicate_no_overwrite.2 gAws gAws1 "aws" "aws" "k1"
     (Except.ok (Wire.payload "aws" [("AccessKey", "A"), ("SecretKey", "B")]))
     (Except.ok (Wire.payload "aws" [("AccessKey", "X"), ("SecretKey", "Y")]))
     none none (by decide) (by decide)⟩

/-- C4: on an existing key, UpdateCredential two-phase decodes the input
bytes — base shape first for the discriminator, then the same bytes again
into the registry-resolved concrete shape — and persists via Save only
after both decodes succeed; every earlier failure (unreadable input,
malformed base decode, malformed concrete decode, and even a failing save)
returns the error with the state unchanged, so a malformed payload never
modifies the stored record. -/
theorem updateCredential_two_phase_decode (g : PackageState) (k : String)
    (input : Reader) (ct : Option codec)
    (hex : (credentials.Exists g k).1 = true) :
    (∀ e, ioutilReadAll input = .error e →
      credentials.UpdateCredential g k input ct = (some ⟨0, e⟩, g)) ∧
    (∀ buff e, ioutilReadAll input = .ok buff →
      (credentials.UnmarshalBase g ct buff ⟨""⟩).1 = .error e →
      credentials.UpdateCredential g k input ct = (some ⟨0, e⟩, g)) ∧
    (∀ buff bse d e, ioutilReadAll input = .ok buff →
      (credentials.UnmarshalBase g ct buff ⟨""⟩).1 = .ok bse →
      (credentials.NewCredential g bse.provisionerName).1 = .ok d →
      (credentials.Unmarshal g ct buff d).1 = .error e →
      credentials.UpdateCredential g k input ct = (some ⟨0, e⟩, g)) ∧
    (∀ buff bse d d' e, ioutilReadAll input = .ok buff →
      (credentials.UnmarshalBase g ct buff ⟨""⟩).1 = .ok bse →
      (credentials.NewCredential g bse.provisionerName).1 = .ok d →
      (credentials.Unmarshal g ct buff d).1 = .ok d' →
      g.store.save k d' = .error e →
      credentials.UpdateCredential g k input ct = (some ⟨0, e⟩, g)) ∧
    (∀ buff bse d d' s', ioutilReadAll input = .ok buff →
      (credentials.UnmarshalBase g ct buff ⟨""⟩).1 = .ok bse →
      (credentials.NewCredential g bse.provisionerName).1 = .ok d →
      (credentials.Unmarshal g ct buff d).1 = .ok d' →
      g.store.save k d' = .ok s' →
      credentials.UpdateCredential g k input ct = (none, g.setStore s')) := by
  refine ⟨?_, ?_, ?_, ?_, ?_⟩
  · intro e h
    simp [credentials.UpdateCredential, hex, h]
  · intro buff e h1 h2
    simp [credentials.UpdateCredential, hex, h1, h2]
  · intro buff bse d e h1 h2 h3 h4
    simp [credentials.UpdateCredential, hex, h1, h2, h3, h4]
  · intro buff bse d d' e h1 h2 h3 h4 h5
    simp [credentials.UpdateCredential, hex, h1, h2, h3, h4,
      credentials.Save, h5]
  · intro buff bse d d' s' h1 h2 h3 h4 h5
    simp [credentials.UpdateCredential, hex, h1, h2, h3, h4,
      credentials.Save, h5]

/-- Witness for C4 at a concrete state: junk input fails the base decode
and leaves the state unchanged, while a well-formed payload is decoded
twice and persisted. -/
theorem updateCredential_two_phase_decode_witness :
    credentials.UpdateCredential gTwo "k1" (Except.ok (Wire.junk "bad payload")) none =
      (some ⟨0, "bad payload"⟩, gTwo) ∧
    credentials.UpdateCredential gTwo "k1"
        (Except.ok (Wire.payload "aws" [("AccessKey", "A2"), ("SecretKey", "B2")])) none =
      (none, gTwo.setStore
        (gTwo.store.setRecs
          [("k1", ⟨⟨"aws"⟩, [("AccessKey", "A2"), ("SecretKey", "B2")]⟩)])) :=
  ⟨(updateCredential_two_phase_decode gTwo "k1"
      (Except.ok (Wire.junk "bad payload")) none (by decide)).2.1
      (Wire.junk "bad payload") "bad payload" (by decide) (by decide),
   (updateCredential_two_phase_decode gTwo "k1"
      (Except.ok (Wire.payload "aws" [("AccessKey", "A2"), ("SecretKey", "B2")])) none
      (by decide)).2.2.2.2
      (Wire.payload "aws" [("AccessKey", "A2"), ("SecretKey", "B2")])
      ⟨"aws"⟩ awsEmpty ⟨⟨"aws"⟩, [("AccessKey", "A2"), ("SecretKey", "B2")]⟩
      (gTwo.store.setRecs [("k1", ⟨⟨"aws"⟩, [("AccessKey", "A2"), ("SecretKey", "B2")]⟩)])
      (by decide) (by decide) (by decide) (by decide) (by decide)⟩

/-- C10: UpdateCredential never compares the input's discriminator against
the provisioner of the record already stored at the key — with a record of
some provisioner stored at k, an input carrying any registered
discriminator q (unrelated to the stored one) decodes and saves, the call
succeeds, and the record at k becomes the q-typed credential. -/
theorem updateCredential_ignores_stored_provisioner (g : PackageState)
    (k : String) (input : Reader) (ct : Option codec) (cOld : Credential)
    (buff : Bytes) (q : String) (d d' : Credential) (s' : StoreState)
    (hold : assocLookup g.store.recs k = some cOld)
    (hfb : k ∉ g.store.failGetBase)
    (hread : ioutilReadAll input = .ok buff)
    (hbase : (credentials.UnmarshalBase g ct buff ⟨""⟩).1 = .ok ⟨q⟩)
    (hreg : assocLookup g.credentialers q = some d)
    (hconc : (credentials.Unmarshal g ct buff d).1 = .ok d')
    (hq : d'.base.provisionerName = q)
    (hsave : g.store.save k d' = .ok s') :
    (credentials.UpdateCredential g k input ct).1 = none ∧
    assocLookup (credentials.UpdateCredential g k input ct).2.store.recs k = some d' ∧
    ((credentials.UpdateCredential g k input ct).2.store.recs.map
        (fun r => r.2.base.provisionerName)).head? = some q := by
  have hex : (credentials.Exists g k).1 = true := exists_of_lookup hold hfb
  have hup : credentials.UpdateCredential g k input ct = (none, g.setStore s') := by
    simp [credentials.UpdateCredential, hex, hread, hbase,
      credentials.NewCredential, hreg, hconc, credentials.Save, hsave]
  have hs : s' = g.store.setRecs ((k, d') :: removeKey g.store.recs k) := by
    by_cases hf : k ∈ g.store.failSave
    · simp [StoreState.save, hf] at hsave
    · simp [StoreState.save, hf] at hsave
      exact hsave.symm
  rw [hup, hs]
  exact ⟨rfl, assocLookup_cons_self _ _ _, by simp [PackageState.setStore,
    StoreState.setRecs, hq]⟩

/-- Witness for C10 at a concrete state: k1 holds an aws record, the input
carries the gcp discriminator, and the update succeeds, leaving a gcp
record at k1. -/
theorem updateCredential_ignores_stored_provisioner_witness :
    awsCred1.base.provisionerName = "aws" ∧
    ("aws" = "gcp" → False) ∧
    (credentials.UpdateCredential gTwo "k1"
        (Except.ok (Wire.payload "gcp" [("Token", "T")])) none).1 = none ∧
    assocLookup (credentials.UpdateCredential gTwo "k1"
        (Except.ok (Wire.payload "gcp" [("Token", "T")])) none).2.store.recs "k1" =
      some ⟨⟨"gcp"⟩, [("Token", "T")]⟩ :=
  ⟨rfl, by decide,
   (updateCredential_ignores_stored_provisioner gTwo "k1"
      (Except.ok (Wire.payload "gcp" [("Token", "T")])) none awsCred1
      (Wire.payload "gcp" [("Token", "T")]) "gcp" gcpEmpty
      ⟨⟨"gcp"⟩, [("Token", "T")]⟩
      (gTwo.store.setRecs [("k1", ⟨⟨"gcp"⟩, [("Token", "T")]⟩)])
      (by decide) (by decide) (by decide) (by decide) (by decide) (by decide)
      (by decide) (by decide)).1,
   (updateCredential_ignores_stored_provisioner gTwo "k1"
      (Except.ok (Wire.payload "gcp" [("Token", "T")])) none awsCred1
      (Wire.payload "gcp" [("Token", "T")]) "gcp" gcpEmpty
      ⟨⟨"gcp"⟩, [("Token", "T")]⟩
      (gTwo.store.setRecs [("k1", ⟨⟨"gcp"⟩, [("Token", "T")]⟩)])
      (by decide) (by decide) (by decide) (by decide) (by decide) (by decide)
      (by decide) (by decide)).2.1⟩

/-- Counterexample for C5: the unknown-provisioner failures of both
CreateCredential and UpdateCredential carry the code ErrCredentialNotFound
— the same code as NotFound — so the failure is not a taxonomy kind
distinct from NotFound. -/
theorem unknown_provisioner_kind_counterexample :
    (credentials.CreateCredential gNil "aws" "k1"
        (Except.ok (Wire.payload "aws" [])) none).1 =
      some ⟨ErrCredentialNotFound, "Unknown provisioner:aws"⟩ ∧
    (credentials.UpdateCredential gTwo "k1"
        (Except.ok (Wire.payload "azure" [])) none).1 =
      some ⟨ErrCredentialNotFound, "Unknow provisioner: azure"⟩ := by decide

/-- C5 (amended): for every provisioner name (or payload discriminator)
with no registered factory, CreateCredential and UpdateCredential fail
with a CredentialError whose code is ErrCredentialNotFound — the NotFound
code is reused; no distinct UnknownProvisioner code exists — and whose
message names the unknown provisioner. -/
theorem unknown_provisioner_reuses_not_found_code :
    (∀ (g : PackageState) (p k : String) (input : Reader) (ct : Option codec),
      (credentials.Exists g k).1 = false →
      assocLookup g.credentialers p = none →
      credentials.CreateCredential g p k input ct =
        (some ⟨ErrCredentialNotFound, "Unknown provisioner:" ++ p⟩, g)) ∧
    (∀ (g : PackageState) (k : String) (input : Reader) (ct : Option codec)
        (buff : Bytes) (q : String),
      (credentials.Exists g k).1 = true →
      ioutilReadAll input = .ok buff →
      (credentials.UnmarshalBase g ct buff ⟨""⟩).1 = .ok ⟨q⟩ →
      assocLookup g.credentialers q = none →
      credentials.UpdateCredential g k input ct =
        (some ⟨ErrCredentialNotFound, "Unknow provisioner: " ++ q⟩, g)) ∧
    ErrCredentialNotFound = 1 ∧ ErrCredentialDuplicate = 0 := by
  refine ⟨?_, ?_, rfl, rfl⟩
  · intro g p k input ct hex hreg
    simp [credentials.CreateCredential, hex, credentials.NewCredential, hreg]
  · intro g k input ct buff q hex hread hbase hreg
    simp [credentials.UpdateCredential, hex, hread, hbase,
      credentials.NewCredential, hreg]

/-- Witness for the amended C5 at a concrete state: creating with the
unregistered provisioner gcp on the empty registry fails with the
NotFound-coded unknown-provisioner error. -/
theorem unknown_provisioner_reuses_not_found_code_witness :
    credentials.CreateCredential gNil "gcp" "k9"
        (Except.ok (Wire.payload "gcp" [])) none =
      (some ⟨ErrCredentialNotFound, "Unknown provisioner:" ++ "gcp"⟩, gNil) :=
  unknown_provisioner_reuses_not_found_code.1 gNil "gcp" "k9"
    (Except.ok (Wire.payload "gcp" [])) none (by decide) (by decide)

/-- Counterexample for C6: a codec failure inside CreateCredential comes
back with code ErrCredentialDuplicate (the Go zero value of the Code
field), exactly the code a genuine Duplicate error carries, so a Generic
error is not distinguishable from a Duplicate error by its kind. -/
theorem generic_error_kind_counterexample :
    (credentials.CreateCredential gTwo "aws" "k2"
        (Except.ok (Wire.junk "boom")) none).1 =
      some ⟨ErrCredentialDuplicate, "boom"⟩ ∧
    (credentials.CreateCredential gTwo "aws" "k1"
        (Except.ok (Wire.payload "aws" [])) none).1 =
      some ⟨ErrCredentialDuplicate, "Key exists: k1"⟩ := by decide

/-- C6 (amended): every codec or store failure inside CreateCredential and
UpdateCredential — Create's concrete decode and save, Update's base
decode, concrete decode, and save — is returned as a CredentialError
carrying the underlying failure message verbatim with the Code field left
at its zero value — which equals ErrCredentialDuplicate — so a Generic
error is distinguishable from a Duplicate error only by message, not by
code. -/
theorem generic_errors_carry_zero_code :
    (∀ (g : PackageState) (p k : String) (input : Reader) (ct : Option codec)
        (cr : Credential) (buff : Bytes) (e : String),
      (credentials.Exists g k).1 = false →
      (credentials.NewCredential g p).1 = .ok cr →
      ioutilReadAll input = .ok buff →
      (credentials.Unmarshal g ct buff cr).1 = .error e →
      credentials.CreateCredential g p k input ct =
        (some ⟨ErrCredentialDuplicate, e⟩, g)) ∧
    (∀ (g : PackageState) (p k : String) (input : Reader) (ct : Option codec)
        (cr cr' : Credential) (buff : Bytes) (e : String),
      (credentials.Exists g k).1 = false →
      (credentials.NewCredential g p).1 = .ok cr →
      ioutilReadAll input = .ok buff →
      (credentials.Unmarshal g ct buff cr).1 = .ok cr' →
      g.store.save k cr' = .error e →
      credentials.CreateCredential g p k input ct =
        (some ⟨ErrCredentialDuplicate, e⟩, g)) ∧
    (∀ (g : PackageState) (k : String) (input : Reader) (ct : Option codec)
        (buff : Bytes) (e : String),
      (credentials.Exists g k).1 = true →
      ioutilReadAll input = .ok buff →
      (credentials.UnmarshalBase g ct buff ⟨""⟩).1 = .error e →
      credentials.UpdateCredential g k input ct =
        (some ⟨ErrCredentialDuplicate, e⟩, g)) ∧
    (∀ (g : PackageState) (k : String) (input : Reader) (ct : Option codec)
        (buff : Bytes) (bse : CredentialBase) (d : Credential) (e : String),
      (credentials.Exists g k).1 = true →
      ioutilReadAll input = .ok buff →
      (credentials.UnmarshalBase g ct buff ⟨""⟩).1 = .ok bse →
      (credentials.NewCredential g bse.provisionerName).1 = .ok d →
      (credentials.Unmarshal g ct buff d).1 = .error e →
      credentials.UpdateCredential g k input ct =
        (some ⟨ErrCredentialDuplicate, e⟩, g)) ∧
    (∀ (g : PackageState) (k : String) (input : Reader) (ct : Option codec)
        (buff : Bytes) (bse : CredentialBase) (d d' : Credential) (e : String),
      (credentials.Exists g k).1 = true →
      ioutilReadAll input = .ok buff →
      (credentials.UnmarshalBase g ct buff ⟨""⟩).1 = .ok bse →
      (credentials.NewCredential g bse.provisionerName).1 = .ok d →
      (credentials.Unmarshal g ct buff d).1 = .ok d' →
      g.store.save k d' = .error e →
      credentials.UpdateCredential g k input ct =
        (some ⟨ErrCredentialDuplicate, e⟩, g)) ∧
    ErrCredentialDuplicate = 0 := by
  refine ⟨?_, ?_, ?_, ?_, ?_, rfl⟩
  · intro g p k input ct cr buff e hex hnew hread hun
    simp [credentials.CreateCredential, hex, hnew, hread, hun,
      ErrCredentialDuplicate]
  · intro g p k input ct cr cr' buff e hex hnew hread hun hsave
    simp [credentials.CreateCredential, hex, hnew, hread, hun,
      credentials.Save, hsave, ErrCredentialDuplicate]
  · intro g k input ct buff e hex hread hbase
    simp [credentials.UpdateCredential, hex, hread, hbase,
      ErrCredentialDuplicate]
  · intro g k input ct buff bse d e hex hread hbase hnew hun
    simp [credentials.UpdateCredential, hex, hread, hbase, hnew, hun,
      ErrCredentialDuplicate]
  · intro g k input ct buff bse d d' e hex hread hbase hnew hun hsave
    simp [credentials.UpdateCredential, hex, hread, hbase, hnew, hun,
      credentials.Save, hsave, ErrCredentialDuplicate]

/-- Witness for the amended C6 at concrete states: a codec failure on junk
input inside CreateCredential and one inside UpdateCredential are both
returned verbatim with the zero (Duplicate) code. -/
theorem generic_errors_carry_zero_code_witness :
    (credentials.CreateCredential gTwo "aws" "k2"
        (Except.ok (Wire.junk "boom")) none =
      (some ⟨ErrCredentialDuplicate, "boom"⟩, gTwo)) ∧
    (credentials.UpdateCredential gTwo "k1"
        (Except.ok (Wire.junk "crash")) none =
      (some ⟨ErrCredentialDuplicate, "crash"⟩, gTwo)) :=
  ⟨generic_errors_carry_zero_code.1 gTwo "aws" "k2"
    (Except.ok (Wire.junk "boom")) none awsEmpty (Wire.junk "boom") "boom"
    (by decide) (by decide) (by decide) (by decide),
   generic_errors_carry_zero_code.2.2.1 gTwo "k1"
    (Except.ok (Wire.junk "crash")) none (Wire.junk "crash") "crash"
    (by decide) (by decide) (by decide)⟩

/-- Counterexample for C7: the lookup path performs its map read without
ever acquiring the lock, so it is not the case that both registry paths
acquire the same mutual-exclusion lock around the map access. -/
theorem registry_lock_counterexample :
    acquiresLock RegisterCredentialerTrace = true ∧
    acquiresLock NewCredentialTrace = false ∧
    RegEvent.readMap ∈ NewCredentialTrace := by decide

/-- C7 (amended): only the registration path acquires the lock, holding it
just around the map write with no store or codec call under it; the lookup
path reads the map without acquiring the lock at all. -/
theorem registry_lock_discipline :
    acquiresLock RegisterCredentialerTrace = true ∧
    RegEvent.writeMap ∈ RegisterCredentialerTrace ∧
    noStoreCallUnderLock RegisterCredentialerTrace 0 = true ∧
    RegEvent.callStore ∉ RegisterCredentialerTrace ∧
    acquiresLock NewCredentialTrace = false ∧
    RegEvent.readMap ∈ NewCredentialTrace := by decide

/-- C9: every credential-manager operation returns the provisioner
registry component of the package state unchanged — the manager only reads
the registry map, never adds, removes, or replaces an entry. -/
theorem manager_operations_preserve_registry (g : PackageState)
    (name provisioner key : String) (data : Bytes) (input : Reader)
    (ct : Option codec) (cred : Credential) (b : CredentialBase) :
    (credentials.NewCredential g name).2.credentialers = g.credentialers ∧
    (credentials.Get g key).2.credentialers = g.credentialers ∧
    (credentials.Exists g key).2.credentialers = g.credentialers ∧
    (credentials.CreateCredential g provisioner key input ct).2.credentialers =
      g.credentialers ∧
    (credentials.UpdateCredential g key input ct).2.credentialers =
      g.credentialers ∧
    (credentials.Save g key cred).2.credentialers = g.credentialers ∧
    (credentials.Delete g key).2.credentialers = g.credentialers ∧
    (credentials.ListIds g).2.credentialers = g.credentialers ∧
    (credentials.Marshal g ct cred).2.credentialers = g.credentialers ∧
    (credentials.Unmarshal g ct data cred).2.credentialers = g.credentialers ∧
    (credentials.UnmarshalBase g ct data b).2.credentialers = g.credentialers := by
  refine ⟨?_, ?_, ?_, ?_, ?_, ?_, ?_, ?_, ?_, ?_, ?_⟩ <;>
    simp only [credentials.NewCredential, credentials.Get, credentials.Exists,
      credentials.CreateCredential, credentials.UpdateCredential,
      credentials.Save, credentials.Delete, credentials.ListIds,
      credentials.Marshal, credentials.Unmarshal, credentials.UnmarshalBase,
      PackageState.setStore] <;>
    (repeat' split) <;>
    first
      | rfl
      | (rename_i heq
         split at heq
         · simp at heq
         · injection heq with h1 h2
           subst h2
           rfl)
